import Mathlib

/-!
Verification of the HSOMbehaviorSuite optogenetics controllers.

The repository contains two Arduino firmware variants:
* `OptogeneticController_Svedberg/ChrimsonOptogeneticController_Svedberg.ino`
  (pulse-mode engine: NUM_PULSES / PULSE_WIDTH / IPI), and
* `ChrimsonOptogeneticController_NH/ChrimsonOptogeneticController_NH.ino`
  (duty-cycle engine: FREQUENCY / PERIOD / DUTY_CYCLE / UP_TIME / DOWN_TIME).

This file gives a shallow embedding of both.  The single-threaded scheduler
tick becomes a pure step function; the monotonic millisecond clock becomes an
explicit natural-number argument; the global mutable variables of each sketch
become fields of an explicit configuration record; physical pin writes and
serial messages become an output event list.  Unsigned-long time subtraction
is modelled by truncated natural subtraction, which agrees with the source
whenever the stored timestamp is no later than the current time (always the
case in-session, since every timer is written from the clock).  Float-valued
parameters are modelled over the rationals.
-/

namespace HSOM

/-- The finite state set of both firmware variants (enum `State`).
`_INIT` and `IDLE_STATE` are dispatched to the same handler in the source. -/
inductive St
| init
| idle
| initExp
| waitRequest
| chrimsonStim
| chr2Stim
| optoLadder
| danTag
| updateParams
deriving DecidableEq, Repr

/-- Observable outputs of one scheduler tick: LED edges (digital stim pins
plus the paired DAC write inside `setChrimsonLED` / `setChR2LED`), bare
DAC zero-writes (`analogWrite(PIN_CHRIMSON_PWR, 0)` without the digital
pin, as in the NH train code), receipt-pin writes, event markers
(`"&" + id` messages), result-code reports (the backquote messages),
state-entry messages, the `"R"` receipt message, and warning messages. -/
inductive Ev
| chrimsonOn
| chrimsonOff
| chr2On
| chr2Off
| chrimsonPwrZero
| chr2PwrZero
| receiptChrimson (b : Bool)
| receiptChr2 (b : Bool)
| marker (id : Nat)
| result (code : Nat)
| stateMsg
| rMsg
| warnAmbiguous
| warnParamsDuringStim
deriving DecidableEq, Repr

/-- Result codes (enum `ResultCode`, identical numbering in both variants). -/
def CODE_CHRIMSON : Nat := 0

def CODE_CHR2 : Nat := 1

def CODE_CHRIMSON_CANCEL : Nat := 2

def CODE_CHR2_CANCEL : Nat := 3

def CODE_UI_CHRIMSON : Nat := 4

def CODE_UI_CHR2 : Nat := 5

def CODE_OPTOTAG : Nat := 6

/-- Event-marker enum indices (enum `EventMarkers`, same prefix ordering in
both variants). -/
def EVENT_BOSS_CHRIMSON_REQUEST : Nat := 3

def EVENT_BOSS_CHRIMSON_STIM_END : Nat := 5

def EVENT_UI_CHRIMSON_REQUEST : Nat := 9

def EVENT_UI_CHRIMSON_STIM_END : Nat := 11

def EVENT_CHRIMSON_ERROR : Nat := 12

def EVENT_UI_CHR2_REQUEST : Nat := 13

/-- The Svedberg parameters read by the pulse/train engine and the ladder
state.  The host writes them as non-negative integer arguments of the
`P` command, so they are modelled as naturals. -/
structure Pars where
  chrimsonNumPulses : Nat
  chrimsonPulseWidth : Nat
  chrimsonIpi : Nat
  chr2NumPulses : Nat
  chr2PulseWidth : Nat
  chr2Ipi : Nat
  stimTrainDelay : Nat
  chrimsonTrainsBeforeChr2 : Nat
  chrimsonTrainsAfterChr2 : Nat
  chr2NumTrains : Nat
deriving DecidableEq, Repr

/-- Default values of those parameters in the Svedberg `_params` array. -/
def defaultPars : Pars :=
  { chrimsonNumPulses := 5
    chrimsonPulseWidth := 10
    chrimsonIpi := 100
    chr2NumPulses := 5
    chr2PulseWidth := 5
    chr2Ipi := 35
    stimTrainDelay := 1000
    chrimsonTrainsBeforeChr2 := 2
    chrimsonTrainsAfterChr2 := 2
    chr2NumTrains := 1 }

/-- The mutable globals of the Svedberg sketch that the stimulation engine,
the request checks and the state dispatcher share.  Both channels use the
single `inPulse` / `pulseIndex` / `pulseTimer` / `currentTrain` group; only
the inter-pulse timers (`ipiTimer` vs `chR2ipiTimer`) are per channel. -/
structure SCfg where
  state : St
  prevState : St
  inPulse : Bool
  pulseIndex : Nat
  currentTrain : Nat
  currentAout : Nat
  pulseTimer : Nat
  ipiTimer : Nat
  chR2ipiTimer : Nat
  singleTrainMode : Bool
  uiChrimson : Bool
  bossChrimson : Bool
  uiChr2 : Bool
  bossChr2 : Bool
  resultCode : Int
deriving DecidableEq, Repr

/-- First block of `runChrimsonTrain` (Svedberg): start a pulse when idle,
below the pulse count, and the inter-pulse interval has elapsed. -/
def chrimsonStartPulse (P : Pars) (c : SCfg) (t : Nat) : SCfg × List Ev :=
  if ¬c.inPulse ∧ c.pulseIndex < P.chrimsonNumPulses ∧ P.chrimsonIpi ≤ t - c.ipiTimer then
    ({ c with pulseTimer := t, inPulse := true }, [Ev.chrimsonOn])
  else (c, [])

/-- Second block of `runChrimsonTrain` (Svedberg): end the pulse when the
pulse width has elapsed; only then is the pulse index incremented. -/
def chrimsonEndPulse (P : Pars) (c : SCfg) (t : Nat) : SCfg × List Ev :=
  if c.inPulse ∧ P.chrimsonPulseWidth ≤ t - c.pulseTimer then
    ({ c with inPulse := false, ipiTimer := t, pulseIndex := c.pulseIndex + 1 }, [Ev.chrimsonOff])
  else (c, [])

/-- Third block of `runChrimsonTrain` (Svedberg): train completion.  Resets
the pulse index, increments the train counter, clamps `currentAout`
(`constrain(currentTrain, 0, 4)`), and in single-train mode disambiguates
the session origin, reports a result code (then resets `_resultCode` to the
`-1` sentinel), clears the session flags and returns to `WAIT_REQUEST_STATE`. -/
def chrimsonComplete (P : Pars) (c : SCfg) : SCfg × List Ev :=
  if P.chrimsonNumPulses ≤ c.pulseIndex then
    let c := { c with
      pulseIndex := 0
      currentTrain := c.currentTrain + 1
      currentAout := min (c.currentTrain + 1) 4 }
    if c.singleTrainMode then
      if c.uiChrimson ∧ ¬c.bossChrimson then
        ({ c with
            uiChrimson := false
            bossChrimson := false
            resultCode := -1
            state := St.waitRequest
            singleTrainMode := false },
          [Ev.result CODE_UI_CHRIMSON])
      else if c.bossChrimson ∧ ¬c.uiChrimson then
        ({ c with
            uiChrimson := false
            bossChrimson := false
            resultCode := -1
            state := St.waitRequest
            singleTrainMode := false },
          [Ev.result CODE_CHRIMSON])
      else
        ({ c with
            uiChrimson := false
            bossChrimson := false
            resultCode := -1
            state := St.waitRequest
            singleTrainMode := false },
          [Ev.warnAmbiguous, Ev.result CODE_CHRIMSON])
    else (c, [])
  else (c, [])

/-- `runChrimsonTrain` (Svedberg, lines 1225-1275): the non-blocking
per-tick advance of the Chrimson pulse/train engine.  The three source
blocks run in sequence within one invocation. -/
def runChrimsonTrain (P : Pars) (c : SCfg) (t : Nat) : SCfg × List Ev :=
  let s := chrimsonStartPulse P c t
  let e := chrimsonEndPulse P s.1 t
  let f := chrimsonComplete P e.1
  (f.1, s.2 ++ e.2 ++ f.2)

/-- First block of `runChR2Train` (Svedberg): start a ChR2 pulse.  Uses the
dedicated `chR2ipiTimer` but the shared `inPulse` / `pulseIndex` /
`pulseTimer`. -/
def chr2StartPulse (P : Pars) (c : SCfg) (t : Nat) : SCfg × List Ev :=
  if ¬c.inPulse ∧ c.pulseIndex < P.chr2NumPulses ∧ P.chr2Ipi ≤ t - c.chR2ipiTimer then
    ({ c with pulseTimer := t, inPulse := true }, [Ev.chr2On])
  else (c, [])

/-- Second block of `runChR2Train` (Svedberg): end a ChR2 pulse. -/
def chr2EndPulse (P : Pars) (c : SCfg) (t : Nat) : SCfg × List Ev :=
  if c.inPulse ∧ P.chr2PulseWidth ≤ t - c.pulseTimer then
    ({ c with inPulse := false, chR2ipiTimer := t, pulseIndex := c.pulseIndex + 1 }, [Ev.chr2Off])
  else (c, [])

/-- Third block of `runChR2Train` (Svedberg): ChR2 train completion (no
`currentAout` clamp in this engine). -/
def chr2Complete (P : Pars) (c : SCfg) : SCfg × List Ev :=
  if P.chr2NumPulses ≤ c.pulseIndex then
    let c := { c with pulseIndex := 0, currentTrain := c.currentTrain + 1 }
    if c.singleTrainMode then
      if c.uiChr2 ∧ ¬c.bossChr2 then
        ({ c with
            uiChr2 := false
            bossChr2 := false
            resultCode := -1
            state := St.waitRequest
            singleTrainMode := false },
          [Ev.result CODE_UI_CHR2])
      else if c.bossChr2 ∧ ¬c.uiChr2 then
        ({ c with
            uiChr2 := false
            bossChr2 := false
            resultCode := -1
            state := St.waitRequest
            singleTrainMode := false },
          [Ev.result CODE_CHR2])
      else
        ({ c with
            uiChr2 := false
            bossChr2 := false
            resultCode := -1
            state := St.waitRequest
            singleTrainMode := false },
          [Ev.warnAmbiguous, Ev.result CODE_CHR2])
    else (c, [])
  else (c, [])

/-- `runChR2Train` (Svedberg, lines 1277-1325). -/
def runChR2Train (P : Pars) (c : SCfg) (t : Nat) : SCfg × List Ev :=
  let s := chr2StartPulse P c t
  let e := chr2EndPulse P s.1 t
  let f := chr2Complete P e.1
  (f.1, s.2 ++ e.2 ++ f.2)

/-- `stimulateChrimson` (Svedberg, lines 1328-1335): resets the shared
session bookkeeping and marks a one-train manual stimulation.  Note that
neither `pulseTimer` nor `ipiTimer` is touched. -/
def stimulateChrimson (c : SCfg) : SCfg :=
  { c with
    currentTrain := 0
    pulseIndex := 0
    inPulse := false
    currentAout := 0
    singleTrainMode := true }

/-- `stimulateChR2` (Svedberg, lines 1337-1343). -/
def stimulateChR2 (c : SCfg) : SCfg :=
  { c with
    currentTrain := 0
    pulseIndex := 0
    inPulse := false
    singleTrainMode := true }

/-- `resetTrain` (Svedberg, lines 1346-1352); called from the ladder entry
action.  This one does reset `pulseTimer` to the current clock. -/
def resetTrain (c : SCfg) (t : Nat) : SCfg :=
  { c with
    pulseIndex := 0
    currentTrain := 0
    currentAout := 0
    inPulse := false
    pulseTimer := t }

/-- `checkChrimsonRequest` (Svedberg, lines 946-976).  Inputs: the
`PIN_CHRIMSON_TRIGGER` level and the pending host command.  Returns whether
the request was handled, the successor configuration and the emitted events. -/
def checkChrimsonRequest (trigger : Bool) (cmd : Char) (c : SCfg) :
    Bool × SCfg × List Ev :=
  if trigger then
    let c := { c with uiChrimson := false, bossChrimson := true }
    let c := stimulateChrimson c
    let c := { c with state := St.chrimsonStim }
    (true, c, [Ev.marker EVENT_BOSS_CHRIMSON_REQUEST, Ev.receiptChrimson true])
  else if cmd = 'C' then
    let c := { c with uiChrimson := true, bossChrimson := false }
    let c := stimulateChrimson c
    let c := { c with state := St.chrimsonStim }
    (true, c, [Ev.marker EVENT_UI_CHRIMSON_REQUEST, Ev.rMsg, Ev.receiptChrimson true])
  else (false, c, [])

/-- `checkChr2Request` (Svedberg, lines 979-995); host-command only. -/
def checkChr2Request (cmd : Char) (c : SCfg) : Bool × SCfg × List Ev :=
  if cmd = 'D' then
    let c := { c with uiChr2 := true, bossChr2 := false }
    let c := stimulateChR2 c
    let c := { c with state := St.chr2Stim }
    (true, c, [Ev.marker EVENT_UI_CHR2_REQUEST, Ev.receiptChr2 true, Ev.rMsg])
  else (false, c, [])

/-! ### Per-tick session trace

`stimTicks` mirrors the main-loop dispatcher for a run with no pending host
command and no trigger input: while `_state == CHRIMSON_STIM_STATE` each tick
reaches `runChrimsonTrain`; once the engine has signalled completion (state
back at `WAIT_REQUEST_STATE`) the engine is no longer dispatched.  The second
component accumulates the emitted events.  `stimTicksChr2` is the analogue
for `CHR2_STIM_STATE`. -/

/-- One dispatcher tick of a quiescent host for the Chrimson session. -/
def tickChrimson (P : Pars) (s : SCfg × List Ev) (t : Nat) : SCfg × List Ev :=
  if s.1.state = St.chrimsonStim then
    let r := runChrimsonTrain P s.1 t
    (r.1, s.2 ++ r.2)
  else s

/-- Run the Chrimson session over a list of tick times. -/
def stimTicks (P : Pars) (c : SCfg) (ts : List Nat) : SCfg × List Ev :=
  ts.foldl (tickChrimson P) (c, [])

/-- One dispatcher tick of a quiescent host for the ChR2 session. -/
def tickChr2 (P : Pars) (s : SCfg × List Ev) (t : Nat) : SCfg × List Ev :=
  if s.1.state = St.chr2Stim then
    let r := runChR2Train P s.1 t
    (r.1, s.2 ++ r.2)
  else s

/-- Run the ChR2 session over a list of tick times. -/
def stimTicksChr2 (P : Pars) (c : SCfg) (ts : List Nat) : SCfg × List Ev :=
  ts.foldl (tickChr2 P) (c, [])

/-- Number of Chrimson ON edges in an event trace. -/
def countChrimsonOn (evs : List Ev) : Nat := evs.count Ev.chrimsonOn

/-- Number of Chrimson OFF edges in an event trace. -/
def countChrimsonOff (evs : List Ev) : Nat := evs.count Ev.chrimsonOff

/-- Number of ChR2 ON edges in an event trace. -/
def countChr2On (evs : List Ev) : Nat := evs.count Ev.chr2On

/-- Number of ChR2 OFF edges in an event trace. -/
def countChr2Off (evs : List Ev) : Nat := evs.count Ev.chr2Off

/-- The result codes reported in an event trace, in order. -/
def resultsOf (evs : List Ev) : List Nat :=
  evs.filterMap fun e => match e with | Ev.result n => some n | _ => none

/-- The configuration of the shared globals right after a UI Chrimson request
has been accepted (the `_command == 'C'` branch of `checkChrimsonRequest`):
UI flag set, BOSS flag cleared, `stimulateChrimson` applied, state moved to
`CHRIMSON_STIM_STATE`.  The timers keep whatever values they had. -/
def uiChrimsonSessionStart (pt ipit c2t : Nat) : SCfg :=
  { state := St.chrimsonStim
    prevState := St.waitRequest
    inPulse := false
    pulseIndex := 0
    currentTrain := 0
    currentAout := 0
    pulseTimer := pt
    ipiTimer := ipit
    chR2ipiTimer := c2t
    singleTrainMode := true
    uiChrimson := true
    bossChrimson := false
    uiChr2 := false
    bossChr2 := false
    resultCode := -1 }

/-- Same for a UI ChR2 request (the `_command == 'D'` branch of
`checkChr2Request`). -/
def uiChr2SessionStart (pt ipit c2t : Nat) : SCfg :=
  { state := St.chr2Stim
    prevState := St.waitRequest
    inPulse := false
    pulseIndex := 0
    currentTrain := 0
    currentAout := 0
    pulseTimer := pt
    ipiTimer := ipit
    chR2ipiTimer := c2t
    singleTrainMode := true
    uiChrimson := false
    bossChrimson := false
    uiChr2 := true
    bossChr2 := false
    resultCode := -1 }

/-! ### Svedberg UPDATE_PARAMS_STATE -/

/-- Raw indexed write into a parameter array modelled as a total map. -/
def svSet (p : Nat → ℚ) (i : Nat) (v : ℚ) : Nat → ℚ :=
  fun j => if j = i then v else p j

/-- Configuration relevant to `update_params_state` (Svedberg): current and
previous state, the `_hold` entry guard, the buffered `_argcopy` pair, the
parameter array and the update handshake flags. -/
structure UCfg where
  state : St
  prevState : St
  hold : Bool
  argId : Nat
  argVal : ℚ
  pars : Nat → ℚ
  isStarted : Bool
  isDone : Bool

/-- `update_params_state` (Svedberg, lines 780-807) for one tick with pending
host command `cmd`.  Entry action (guarded by `_hold`): announce the state and
apply the buffered write `_params[_argcopy[0]] = _argcopy[1]`.  Then the
inline `'O'` block, then the transition list: `checkQuit` (`'Q'` moves to
`IDLE_STATE`), `checkUpdateComplete` (`'O'` restores `_prevState` and drops
the hold), else remain in `UPDATE_PARAMS_STATE`.  Debug-only `sendMessage`
text is not traced. -/
def update_params_state (cmd : Char) (c : UCfg) : UCfg × List Ev :=
  let s : UCfg × List Ev :=
    if ¬(c.hold = true) then
      ({ c with hold := true, pars := svSet c.pars c.argId c.argVal }, [Ev.stateMsg])
    else (c, [])
  let c := s.1
  let c :=
    if cmd = 'O' then
      { c with isStarted := false, isDone := true, state := c.prevState, hold := false }
    else c
  if cmd = 'Q' then ({ c with state := St.idle }, s.2)
  else if cmd = 'O' then
    ({ c with isStarted := false, isDone := true, state := c.prevState, hold := false }, s.2)
  else ({ c with state := St.updateParams }, s.2)

/-- `checkParamUpdate` (Svedberg, lines 1529-1543): on a `'P'` command, copy
the arguments, mark the handshake, perform the raw unchecked write
`_params[_arguments[0]] = _arguments[1]` and move to `UPDATE_PARAMS_STATE`. -/
def checkParamUpdate (cmd : Char) (arg0 : Nat) (arg1 : ℚ) (c : UCfg) : Bool × UCfg :=
  if cmd = 'P' then
    (true, { c with
      argId := arg0
      argVal := arg1
      isStarted := true
      isDone := false
      pars := svSet c.pars arg0 arg1
      state := St.updateParams })
  else (false, c)

/-! ### Svedberg parameter store (guarded embedding for the bounds claim)

The source performs `_params[_arguments[0]] = _arguments[1]` with no bounds
validation on an array of `_NUM_PARAMS = 30` floats.  Here the array is a
length-30 list and the indexed write is guarded, so the out-of-bounds branch
of the raw source write is visible as `none`. -/

/-- Number of parameters in the Svedberg `_params` array (`_NUM_PARAMS`). -/
def svNumPars : Nat := 30

/-- The Svedberg `_params` default values, in enum order. -/
def svDefaultParams : List ℚ :=
  [1, 1, 1, 5, 10, 100, 5, 5, 35, 200, 10, 3000,
   100, 200, 400, 800, 1600, 2000, 100, 200, 400, 800, 1600, 2000,
   1000, 0, 1000, 2, 2, 1]

/-- Guarded embedding of the raw write `_params[id] = value`: in bounds the
identified entry takes the written value, out of bounds the source write has
no defined meaning and the guarded write reports the error branch. -/
def svParamWrite (p : List ℚ) (id : Nat) (v : ℚ) : Option (List ℚ) :=
  if id < p.length then some (p.set id v) else none

/-! ### Svedberg OPTO_LADDER_STATE -/

/-- Configuration of `opto_ladder_state` (Svedberg): the shared globals plus
the static locals `phase`, `delayAfterPhase`, `delayStartTime`. -/
structure LCfg where
  eng : SCfg
  phase : Nat
  delayAfterPhase : Bool
  delayStartTime : Nat
deriving DecidableEq, Repr

/-- Entry action of `opto_ladder_state` (Svedberg, executed when
`_state != _prevState`): reset the shared pulse bookkeeping, the phase
counter and the delay flag.  (The ladder amplitude array is loaded here in
the source; amplitudes do not influence the control flow and are not
modelled.) -/
def optoLadderEntry (c : LCfg) : LCfg :=
  { c with
    eng := { c.eng with
      prevState := St.optoLadder
      pulseIndex := 0
      currentTrain := 0
      currentAout := 0
      inPulse := false }
    phase := 0
    delayAfterPhase := false }

/-- Per-tick body of `opto_ladder_state` (Svedberg, lines 812-887): a
three-phase program (Chrimson trains, ChR2 trains, Chrimson trains) with a
non-blocking `STIM_TRAIN_DELAY` wait between consecutive phases; the
terminal phase ends in `WAIT_REQUEST_STATE` with result code
`CODE_OPTOTAG`. -/
def optoLadderStep (P : Pars) (c : LCfg) (t : Nat) : LCfg × List Ev :=
  match c.phase with
  | 0 =>
    if c.eng.currentTrain < P.chrimsonTrainsBeforeChr2 then
      let r := runChrimsonTrain P c.eng t
      ({ c with eng := r.1 }, r.2)
    else if ¬c.delayAfterPhase then
      ({ c with delayAfterPhase := true, delayStartTime := t }, [])
    else if P.stimTrainDelay ≤ t - c.delayStartTime then
      ({ c with
          phase := c.phase + 1
          delayAfterPhase := false
          eng := { c.eng with currentTrain := 0, pulseIndex := 0 } }, [])
    else (c, [])
  | 1 =>
    if c.eng.currentTrain < P.chr2NumTrains then
      let r := runChR2Train P c.eng t
      ({ c with eng := r.1 }, r.2)
    else if ¬c.delayAfterPhase then
      ({ c with delayAfterPhase := true, delayStartTime := t }, [])
    else if P.stimTrainDelay ≤ t - c.delayStartTime then
      ({ c with
          phase := c.phase + 1
          delayAfterPhase := false
          eng := { c.eng with currentTrain := 0, pulseIndex := 0 } }, [])
    else (c, [])
  | 2 =>
    if c.eng.currentTrain < P.chrimsonTrainsAfterChr2 then
      let r := runChrimsonTrain P c.eng t
      ({ c with eng := r.1 }, r.2)
    else
      ({ c with eng := { c.eng with state := St.waitRequest, resultCode := CODE_OPTOTAG } },
        [Ev.rMsg, Ev.result CODE_OPTOTAG])
  | _ + 3 => (c, [])

/-! ### NH variant: parameter ids and the UPDATE_PARAMS entry recompute -/

namespace NHP

/-- NH enum `ParamID` indices for the frequency / period / duty-cycle /
up-time / down-time groups of the four channels. -/
def CHRIMSON_FREQUENCY : Nat := 3

def CHRIMSON_PERIOD : Nat := 4

def CHRIMSON_DUTY_CYCLE : Nat := 6

def CHRIMSON_UP_TIME : Nat := 7

def CHRIMSON_DOWN_TIME : Nat := 8

def CHR2_FREQUENCY : Nat := 9

def CHR2_PERIOD : Nat := 10

def CHR2_DUTY_CYCLE : Nat := 12

def CHR2_UP_TIME : Nat := 13

def CHR2_DOWN_TIME : Nat := 14

def UI_CHRIMSON_FREQUENCY : Nat := 15

def UI_CHRIMSON_PERIOD : Nat := 16

def UI_CHRIMSON_DUTY_CYCLE : Nat := 18

def UI_CHRIMSON_UP_TIME : Nat := 19

def UI_CHRIMSON_DOWN_TIME : Nat := 20

def UI_CHR2_FREQUENCY : Nat := 21

def UI_CHR2_PERIOD : Nat := 22

def UI_CHR2_DUTY_CYCLE : Nat := 24

def UI_CHR2_UP_TIME : Nat := 25

def UI_CHR2_DOWN_TIME : Nat := 26

end NHP

/-- NH `_params` default values in enum order (indices 0-38). -/
def nhDefaultParams : Nat → ℚ := fun i =>
  [1, 0, 1, 1, 1000, 1000, 50, 500, 500, 10, 100, 250, 35, 35, 65,
   1, 1000, 1000, 50, 500, 500, 10, 100, 250, 35, 35, 65,
   0, 0, 0, 0, 0, 0, 0, 0, 1000, 0, 0, 0].getD i 0

/-- The dependent-parameter recompute chain of the NH
`update_params_state` entry action (lines 793-837, 840-884 and 894-933):
fifteen blocks, one per authoritative field of the CHRIMSON, UI_CHRIMSON and
CHR2 groups.  `v` is `_argcopy[1]`, read as a float.  The raw write
`_params[_argcopy[0]] = _argcopy[1]` has already happened in
`checkParamUpdate`, so blocks that read the authoritative field from the
array see `v` there.  No block exists for the UI_CHR2 group. -/
def nhRecompute (argId : Nat) (v : ℚ) (p : Nat → ℚ) : Nat → ℚ :=
  let p :=
    if argId = NHP.CHRIMSON_DUTY_CYCLE then
      let cycle := p NHP.CHRIMSON_PERIOD
      let p := svSet p NHP.CHRIMSON_UP_TIME (v / 100 * cycle)
      svSet p NHP.CHRIMSON_DOWN_TIME (cycle - p NHP.CHRIMSON_UP_TIME)
    else p
  let p :=
    if argId = NHP.CHRIMSON_UP_TIME then
      let cycle := p NHP.CHRIMSON_PERIOD
      let p := svSet p NHP.CHRIMSON_DUTY_CYCLE (100 * v / cycle)
      svSet p NHP.CHRIMSON_DOWN_TIME (cycle - v)
    else p
  let p :=
    if argId = NHP.CHRIMSON_DOWN_TIME then
      let cycle := p NHP.CHRIMSON_PERIOD
      let p := svSet p NHP.CHRIMSON_UP_TIME (cycle - v)
      svSet p NHP.CHRIMSON_DUTY_CYCLE (100 * p NHP.CHRIMSON_UP_TIME / cycle)
    else p
  let p :=
    if argId = NHP.CHRIMSON_FREQUENCY then
      let p := svSet p NHP.CHRIMSON_PERIOD (1000 / v)
      let cycle := p NHP.CHRIMSON_PERIOD
      let p := svSet p NHP.CHRIMSON_UP_TIME (p NHP.CHRIMSON_DUTY_CYCLE / 100 * cycle)
      svSet p NHP.CHRIMSON_DOWN_TIME (cycle - p NHP.CHRIMSON_UP_TIME)
    else p
  let p :=
    if argId = NHP.CHRIMSON_PERIOD then
      let p := svSet p NHP.CHRIMSON_FREQUENCY (1000 / v)
      let cycle := v
      let p := svSet p NHP.CHRIMSON_UP_TIME (p NHP.CHRIMSON_DUTY_CYCLE / 100 * cycle)
      svSet p NHP.CHRIMSON_DOWN_TIME (cycle - p NHP.CHRIMSON_UP_TIME)
    else p
  let p :=
    if argId = NHP.UI_CHRIMSON_DUTY_CYCLE then
      let cycle := p NHP.UI_CHRIMSON_PERIOD
      let p := svSet p NHP.UI_CHRIMSON_UP_TIME (v / 100 * cycle)
      svSet p NHP.UI_CHRIMSON_DOWN_TIME (cycle - p NHP.UI_CHRIMSON_UP_TIME)
    else p
  let p :=
    if argId = NHP.UI_CHRIMSON_UP_TIME then
      let cycle := p NHP.UI_CHRIMSON_PERIOD
      let p := svSet p NHP.UI_CHRIMSON_DUTY_CYCLE (100 * v / cycle)
      svSet p NHP.UI_CHRIMSON_DOWN_TIME (cycle - v)
    else p
  let p :=
    if argId = NHP.UI_CHRIMSON_DOWN_TIME then
      let cycle := p NHP.UI_CHRIMSON_PERIOD
      let p := svSet p NHP.UI_CHRIMSON_UP_TIME (cycle - v)
      svSet p NHP.UI_CHRIMSON_DUTY_CYCLE (100 * p NHP.UI_CHRIMSON_UP_TIME / cycle)
    else p
  let p :=
    if argId = NHP.UI_CHRIMSON_FREQUENCY then
      let p := svSet p NHP.UI_CHRIMSON_PERIOD (1000 / v)
      let cycle := p NHP.UI_CHRIMSON_PERIOD
      let p := svSet p NHP.UI_CHRIMSON_UP_TIME (p NHP.UI_CHRIMSON_DUTY_CYCLE / 100 * cycle)
      svSet p NHP.UI_CHRIMSON_DOWN_TIME (cycle - p NHP.UI_CHRIMSON_UP_TIME)
    else p
  let p :=
    if argId = NHP.UI_CHRIMSON_PERIOD then
      let p := svSet p NHP.UI_CHRIMSON_FREQUENCY (1000 / v)
      let cycle := v
      let p := svSet p NHP.UI_CHRIMSON_UP_TIME (p NHP.UI_CHRIMSON_DUTY_CYCLE / 100 * cycle)
      svSet p NHP.UI_CHRIMSON_DOWN_TIME (cycle - p NHP.UI_CHRIMSON_UP_TIME)
    else p
  let p :=
    if argId = NHP.CHR2_DUTY_CYCLE then
      let cycle := p NHP.CHR2_PERIOD
      let p := svSet p NHP.CHR2_UP_TIME (v / 100 * cycle)
      svSet p NHP.CHR2_DOWN_TIME (cycle - p NHP.CHR2_UP_TIME)
    else p
  let p :=
    if argId = NHP.CHR2_UP_TIME then
      let cycle := p NHP.CHR2_PERIOD
      let p := svSet p NHP.CHR2_DUTY_CYCLE (100 * v / cycle)
      svSet p NHP.CHR2_DOWN_TIME (cycle - v)
    else p
  let p :=
    if argId = NHP.CHR2_DOWN_TIME then
      let cycle := p NHP.CHR2_PERIOD
      let p := svSet p NHP.CHR2_UP_TIME (cycle - v)
      svSet p NHP.CHR2_DUTY_CYCLE (100 * p NHP.CHR2_UP_TIME / cycle)
    else p
  let p :=
    if argId = NHP.CHR2_FREQUENCY then
      let p := svSet p NHP.CHR2_PERIOD (1000 / v)
      let cycle := p NHP.CHR2_PERIOD
      let p := svSet p NHP.CHR2_UP_TIME (p NHP.CHR2_DUTY_CYCLE / 100 * cycle)
      svSet p NHP.CHR2_DOWN_TIME (cycle - p NHP.CHR2_UP_TIME)
    else p
  let p :=
    if argId = NHP.CHR2_PERIOD then
      let p := svSet p NHP.CHR2_FREQUENCY (1000 / v)
      let cycle := v
      let p := svSet p NHP.CHR2_UP_TIME (p NHP.CHR2_DUTY_CYCLE / 100 * cycle)
      svSet p NHP.CHR2_DOWN_TIME (cycle - p NHP.CHR2_UP_TIME)
    else p
  p

/-- One full NH parameter update of id `argId` to integer value `v`: the raw
write performed by `checkParamUpdate` followed by the entry-action recompute
of `update_params_state`. -/
def nhParamUpdate (argId : Nat) (v : ℚ) (p : Nat → ℚ) : Nat → ℚ :=
  nhRecompute argId v (svSet p argId v)

/-- The five parameter ids of one frequency / period / duty-cycle / up-time /
down-time group. -/
structure Triple where
  freq : Nat
  period : Nat
  duty : Nat
  up : Nat
  down : Nat
deriving DecidableEq, Repr

/-- The CHRIMSON group. -/
def chrimsonTriple : Triple := ⟨3, 4, 6, 7, 8⟩

/-- The CHR2 group. -/
def chr2Triple : Triple := ⟨9, 10, 12, 13, 14⟩

/-- The UI_CHRIMSON group. -/
def uiChrimsonTriple : Triple := ⟨15, 16, 18, 19, 20⟩

/-- The UI_CHR2 group (present in the parameter enum, absent from the
recompute chain). -/
def uiChr2Triple : Triple := ⟨21, 22, 24, 25, 26⟩

/-- Consistency of one group as stated in the spec:
period = 1000/frequency, upTime + downTime = period, and
dutyCycle = 100*upTime/period. -/
def tripleOK (p : Nat → ℚ) (T : Triple) : Prop :=
  p T.period = 1000 / p T.freq ∧
  p T.up + p T.down = p T.period ∧
  p T.duty = 100 * p T.up / p T.period

/-! ### NH UPDATE_PARAMS_STATE tick and warning check -/

/-- `checkWarnings` (NH, lines 1699-1710): a warning plus an error event
marker, emitted only when one of the two Chrimson session flags is set.
The ChR2 session flags are not inspected. -/
def nhCheckWarnings (bossChrimson uiChrimson : Bool) : List Ev :=
  if bossChrimson ∨ uiChrimson then
    [Ev.warnParamsDuringStim, Ev.marker EVENT_CHRIMSON_ERROR]
  else []

/-- Configuration relevant to the NH `update_params_state`. -/
structure NHUCfg where
  state : St
  prevState : St
  hold : Bool
  argId : Nat
  argVal : ℚ
  pars : Nat → ℚ
  bossChrimson : Bool
  uiChrimson : Bool
  bossChr2 : Bool
  uiChr2 : Bool
  isStarted : Bool
  isDone : Bool

/-- `update_params_state` (NH, lines 778-943) for one tick: the entry action
(guarded by `_hold`) announces the state, runs `checkWarnings`, sets the
hold and recomputes dependent parameters; the transition list is
`checkQuit` then `checkUpdateComplete` (NH lines 1736-1746: on `'O'` restore
`_prevState` and drop the hold), else remain in `UPDATE_PARAMS_STATE`.
Debug and parameter-broadcast messages are not traced. -/
def nhUpdateParamsTick (cmd : Char) (c : NHUCfg) : NHUCfg × List Ev :=
  let s : NHUCfg × List Ev :=
    if ¬(c.hold = true) then
      ({ c with hold := true, pars := nhRecompute c.argId c.argVal c.pars },
        Ev.stateMsg :: nhCheckWarnings c.bossChrimson c.uiChrimson)
    else (c, [])
  let c := s.1
  if cmd = 'Q' then ({ c with state := St.idle }, s.2)
  else if cmd = 'O' then
    ({ c with
        isStarted := false
        isDone := true
        state := c.prevState
        hold := false }, s.2)
  else ({ c with state := St.updateParams }, s.2)

/-! ### NH duty-cycle stimulation check (cancellation path) -/

/-- NH globals for the duty-cycle Chrimson session used by
`checkStimChrimson`. -/
structure NHStimCfg where
  bossInProgress : Bool
  uiInProgress : Bool
  dutyState : Bool
  dutyTimer : Nat
  timeStimulated : Nat
deriving DecidableEq, Repr

/-- The NH parameters read by `checkStimChrimson`. -/
structure NHStimPars where
  cancelEnabled : Bool
  upTime : Nat
  downTime : Nat
  duration : Nat
  uiUpTime : Nat
  uiDownTime : Nat
  uiDuration : Nat
deriving DecidableEq, Repr

/-- `checkStimChrimson` (NH, lines 1104-1172).  For a BOSS-initiated
session, in priority order: cancel (when `CANCEL_ENABLED` and `PIN_CANCEL`
is high) ends the session with `CODE_CHRIMSON_CANCEL`; duration elapsed ends
it with `CODE_CHRIMSON`; otherwise the duty cycle toggles the LED.  For a
UI-initiated session there is no cancel branch. -/
def nhCheckStimChrimson (pp : NHStimPars) (cancelPin : Bool) (t : Nat)
    (c : NHStimCfg) : NHStimCfg × List Ev :=
  if c.bossInProgress then
    if pp.cancelEnabled ∧ cancelPin then
      ({ c with
          bossInProgress := false
          uiInProgress := false
          dutyState := false
          timeStimulated := 0 },
        [Ev.chrimsonOff, Ev.receiptChrimson false,
          Ev.marker EVENT_BOSS_CHRIMSON_STIM_END, Ev.result CODE_CHRIMSON_CANCEL])
    else if pp.duration < t - c.timeStimulated then
      ({ c with
          bossInProgress := false
          uiInProgress := false
          dutyState := false
          timeStimulated := 0 },
        [Ev.chrimsonOff, Ev.receiptChrimson false,
          Ev.marker EVENT_BOSS_CHRIMSON_STIM_END, Ev.result CODE_CHRIMSON])
    else if pp.upTime < t - c.dutyTimer ∧ c.dutyState then
      ({ c with dutyState := false, dutyTimer := t }, [Ev.chrimsonOff])
    else if pp.downTime < t - c.dutyTimer ∧ ¬c.dutyState then
      ({ c with dutyState := true, dutyTimer := t }, [Ev.chrimsonOn])
    else (c, [])
  else if c.uiInProgress then
    if pp.uiDuration < t - c.timeStimulated then
      ({ c with
          bossInProgress := false
          uiInProgress := false
          dutyState := false
          timeStimulated := 0 },
        [Ev.chrimsonOff, Ev.receiptChrimson false,
          Ev.marker EVENT_UI_CHRIMSON_STIM_END, Ev.result CODE_UI_CHRIMSON])
    else if pp.uiUpTime < t - c.dutyTimer ∧ c.dutyState then
      ({ c with dutyState := false, dutyTimer := t }, [Ev.chrimsonOff])
    else if pp.uiDownTime < t - c.dutyTimer ∧ ¬c.dutyState then
      ({ c with dutyState := true, dutyTimer := t }, [Ev.chrimsonOn])
    else (c, [])
  else (c, [])

/-! ### NH pulse-train engine and ladder -/

/-- NH enum `ParamID` indices that the NH train and ladder code uses
directly as integers (missing `_params[...]` around them in the source):
`delay(CHRIMSON_PERIOD)`, `delay(CHR2_PERIOD)` and the
`currentTrain < CHRIMSON_TRAINS_BEFORE_CHR2` style comparisons. -/
def NHC_CHRIMSON_PERIOD : Nat := 4

def NHC_CHR2_PERIOD : Nat := 10

def NHC_CHRIMSON_TRAINS_BEFORE_CHR2 : Nat := 36

def NHC_CHRIMSON_TRAINS_AFTER_CHR2 : Nat := 37

def NHC_CHR2_NUM_TRAINS : Nat := 38

/-- NH file-scope globals shared by `runChrimsonTrain`, `runChR2Train` and
`resetTrain`. -/
structure NHG where
  inPulse : Bool
  pulseIndex : Nat
  currentTrain : Nat
  lastPulseTime : Nat
  chrimsonValueIndex : Nat
  dutyStateChrimson : Bool
  dutyTimerChrimson : Nat
  timeChrimsonStimulated : Nat
  dutyStateChr2 : Bool
  dutyTimerChr2 : Nat
  timeChr2Stimulated : Nat
deriving DecidableEq, Repr

/-- `runChrimsonTrain` (NH, lines 1399-1431).  Third output component: the
number of milliseconds of blocking `delay(...)` executed inside the call
(the train-completion branch executes `delay(CHRIMSON_PERIOD)`, where
`CHRIMSON_PERIOD` is the bare enum index 4). -/
def nhRunChrimsonTrain (upTime downTime : Nat) (g : NHG) (t : Nat) :
    NHG × List Ev × Nat :=
  let s : NHG × List Ev :=
    if ¬g.inPulse ∧ g.pulseIndex < 5 then
      ({ g with
          timeChrimsonStimulated := t
          dutyTimerChrimson := t
          dutyStateChrimson := true
          inPulse := true }, [Ev.chrimsonOn])
    else (g, [])
  let g := s.1
  if g.inPulse then
    if g.dutyStateChrimson ∧ upTime < t - g.dutyTimerChrimson then
      ({ g with dutyStateChrimson := false, dutyTimerChrimson := t },
        s.2 ++ [Ev.chrimsonPwrZero], 0)
    else if ¬g.dutyStateChrimson ∧ downTime < t - g.dutyTimerChrimson then
      if g.pulseIndex + 1 < 5 then
        ({ g with
            pulseIndex := g.pulseIndex + 1
            dutyStateChrimson := true
            dutyTimerChrimson := t }, s.2 ++ [Ev.chrimsonOn], 0)
      else
        ({ g with
            pulseIndex := 0
            inPulse := false
            currentTrain := g.currentTrain + 1 },
          s.2 ++ [Ev.chrimsonOff], NHC_CHRIMSON_PERIOD)
    else (g, s.2, 0)
  else (g, s.2, 0)

/-- `runChR2Train` (NH, lines 1436-1468); the completion branch executes
`delay(CHR2_PERIOD)` with the bare enum index 10. -/
def nhRunChR2Train (upTime downTime : Nat) (g : NHG) (t : Nat) :
    NHG × List Ev × Nat :=
  let s : NHG × List Ev :=
    if ¬g.inPulse ∧ g.pulseIndex < 5 then
      ({ g with
          timeChr2Stimulated := t
          dutyTimerChr2 := t
          dutyStateChr2 := true
          inPulse := true }, [Ev.chr2On])
    else (g, [])
  let g := s.1
  if g.inPulse then
    if g.dutyStateChr2 ∧ upTime < t - g.dutyTimerChr2 then
      ({ g with dutyStateChr2 := false, dutyTimerChr2 := t },
        s.2 ++ [Ev.chr2PwrZero], 0)
    else if ¬g.dutyStateChr2 ∧ downTime < t - g.dutyTimerChr2 then
      if g.pulseIndex + 1 < 5 then
        ({ g with
            pulseIndex := g.pulseIndex + 1
            dutyStateChr2 := true
            dutyTimerChr2 := t }, s.2 ++ [Ev.chr2On], 0)
      else
        ({ g with
            pulseIndex := 0
            inPulse := false
            currentTrain := g.currentTrain + 1 },
          s.2 ++ [Ev.chr2Off], NHC_CHR2_PERIOD)
    else (g, s.2, 0)
  else (g, s.2, 0)

/-- `resetTrain` (NH, lines 1472-1479): resets the file-scope globals (not
the identically named static locals of `opto_ladder_state`). -/
def nhResetTrain (g : NHG) : NHG :=
  { g with
    pulseIndex := 0
    currentTrain := 0
    lastPulseTime := 0
    inPulse := false
    chrimsonValueIndex := 0 }

/-- Configuration of the NH `opto_ladder_state`: the globals plus the
function-static locals, which shadow the globals of the same names. -/
structure NHLCfg where
  glob : NHG
  state : St
  stateEntryTime : Nat
  phase : Nat
  sCurrentTrain : Nat
  sPulseIndex : Nat
  sLastPulseTime : Nat
  sInPulse : Bool
  sChrimsonValueIndex : Nat
deriving DecidableEq, Repr

/-- Per-tick body of `opto_ladder_state` (NH, lines 949-1013).  The phase
guards compare the static-local `currentTrain` against the bare enum
indices (`CHRIMSON_TRAINS_BEFORE_CHR2` etc., source slip); the terminal
phase transitions to `IDLE_STATE` with no result code.  Third output
component: blocking delay milliseconds incurred by the called train
functions. -/
def nhOptoLadderStep (chrUp chrDown c2Up c2Down : Nat) (c : NHLCfg) (t : Nat) :
    NHLCfg × List Ev × Nat :=
  match c.phase with
  | 0 =>
    if c.sCurrentTrain < NHC_CHRIMSON_TRAINS_BEFORE_CHR2 then
      let r := nhRunChrimsonTrain chrUp chrDown c.glob t
      ({ c with glob := r.1 }, r.2.1, r.2.2)
    else ({ c with phase := c.phase + 1, glob := nhResetTrain c.glob }, [], 0)
  | 1 =>
    if c.sCurrentTrain < NHC_CHR2_NUM_TRAINS then
      let r := nhRunChR2Train c2Up c2Down c.glob t
      ({ c with glob := r.1 }, r.2.1, r.2.2)
    else ({ c with phase := c.phase + 1, glob := nhResetTrain c.glob }, [], 0)
  | 2 =>
    if c.sCurrentTrain < NHC_CHRIMSON_TRAINS_AFTER_CHR2 then
      let r := nhRunChrimsonTrain chrUp chrDown c.glob t
      ({ c with glob := r.1 }, r.2.1, r.2.2)
    else ({ c with stateEntryTime := 0, state := St.idle }, [], 0)
  | _ + 3 => (c, [], 0)

/-! ## Concrete configurations used by witnesses and counterexamples -/

/-- A configuration sitting in `UPDATE_PARAMS_STATE` with the entry action
already performed (`_hold` set), having arrived from `WAIT_REQUEST_STATE`. -/
def u0 : UCfg :=
  { state := St.updateParams
    prevState := St.waitRequest
    hold := true
    argId := 3
    argVal := 7
    pars := fun _ => 0
    isStarted := true
    isDone := false }

/-- A Svedberg configuration mid-pulse (output ON) in a UI Chrimson session:
pulse 3 of 5 is in flight, `pulseTimer = 777`, `ipiTimer = 500`. -/
def c5mid : SCfg :=
  { state := St.chrimsonStim
    prevState := St.chrimsonStim
    inPulse := true
    pulseIndex := 2
    currentTrain := 0
    currentAout := 0
    pulseTimer := 777
    ipiTimer := 500
    chR2ipiTimer := 0
    singleTrainMode := true
    uiChrimson := true
    bossChrimson := false
    uiChr2 := false
    bossChr2 := false
    resultCode := -1 }

/-- An active NH UI-initiated Chrimson session (duty HIGH). -/
def c6ui : NHStimCfg :=
  { bossInProgress := false
    uiInProgress := true
    dutyState := true
    dutyTimer := 0
    timeStimulated := 0 }

/-- NH stimulation parameters with cancellation enabled. -/
def c6pars : NHStimPars :=
  { cancelEnabled := true
    upTime := 500
    downTime := 500
    duration := 1000
    uiUpTime := 500
    uiDownTime := 500
    uiDuration := 1000 }

/-- An NH UpdateParams entry configuration with only a ChR2 session flag
set. -/
def c7chr2 : NHUCfg :=
  { state := St.updateParams
    prevState := St.waitRequest
    hold := false
    argId := 0
    argVal := 0
    pars := nhDefaultParams
    bossChrimson := false
    uiChrimson := false
    bossChr2 := false
    uiChr2 := true
    isStarted := true
    isDone := false }

/-- An NH UpdateParams entry configuration with a UI Chrimson session flag
set. -/
def c7chrimson : NHUCfg :=
  { state := St.updateParams
    prevState := St.waitRequest
    hold := false
    argId := 0
    argVal := 0
    pars := nhDefaultParams
    bossChrimson := false
    uiChrimson := true
    bossChr2 := false
    uiChr2 := false
    isStarted := true
    isDone := false }

/-- An active NH BOSS-initiated Chrimson session (duty HIGH). -/
def bossActive : NHStimCfg :=
  { bossInProgress := true
    uiInProgress := false
    dutyState := true
    dutyTimer := 0
    timeStimulated := 0 }

/-- A ChR2 session configuration about to finish pulse 5 of 5: the next
ChR2 advance mutates the shared pulse index, train counter and in-pulse
flag. -/
def c10off : SCfg :=
  { state := St.chr2Stim
    prevState := St.chr2Stim
    inPulse := true
    pulseIndex := 4
    currentTrain := 0
    currentAout := 0
    pulseTimer := 0
    ipiTimer := 500
    chR2ipiTimer := 0
    singleTrainMode := true
    uiChrimson := false
    bossChrimson := false
    uiChr2 := true
    bossChr2 := false
    resultCode := -1 }

/-- A ChR2 session configuration about to start a pulse: the next ChR2
advance overwrites the shared pulse timer. -/
def c10on : SCfg :=
  { state := St.chr2Stim
    prevState := St.chr2Stim
    inPulse := false
    pulseIndex := 0
    currentTrain := 0
    currentAout := 0
    pulseTimer := 777
    ipiTimer := 500
    chR2ipiTimer := 0
    singleTrainMode := true
    uiChrimson := false
    bossChrimson := false
    uiChr2 := true
    bossChr2 := false
    resultCode := -1 }

/-- NH train globals at the end of the final duty-LOW interval of pulse 5:
the next advance call crosses the train-completion branch. -/
def c4glob : NHG :=
  { inPulse := true
    pulseIndex := 4
    currentTrain := 0
    lastPulseTime := 0
    chrimsonValueIndex := 0
    dutyStateChrimson := false
    dutyTimerChrimson := 0
    timeChrimsonStimulated := 0
    dutyStateChr2 := false
    dutyTimerChr2 := 0
    timeChr2Stimulated := 0 }

/-- NH ladder configuration at the terminal phase with the static-local
train counter past `CHRIMSON_TRAINS_AFTER_CHR2` (the bare enum index 37). -/
def c8nh : NHLCfg :=
  { glob := c4glob
    state := St.optoLadder
    stateEntryTime := 5
    phase := 2
    sCurrentTrain := 37
    sPulseIndex := 0
    sLastPulseTime := 0
    sInPulse := false
    sChrimsonValueIndex := 0 }

/-- Invariant of a UI-initiated single-train Chrimson session, relating the
engine configuration to the cumulative event trace: either the session is
still running in `CHRIMSON_STIM_STATE` — ON edges lead OFF edges by exactly
the in-pulse flag, OFF edges equal the pulse index, and no result has been
reported — or the engine has signalled completion and sits in
`WAIT_REQUEST_STATE` with exactly `N` ON and `N` OFF edges and exactly one
`CODE_UI_CHRIMSON` report. -/
def chrimsonSessionInv (N : Nat) (s : SCfg × List Ev) : Prop :=
  (s.1.state = St.chrimsonStim ∧ s.1.singleTrainMode = true ∧
    s.1.uiChrimson = true ∧ s.1.bossChrimson = false ∧
    countChrimsonOn s.2 = countChrimsonOff s.2 + (if s.1.inPulse then 1 else 0) ∧
    countChrimsonOff s.2 = s.1.pulseIndex ∧ s.1.pulseIndex < N ∧
    s.1.currentTrain = 0 ∧ resultsOf s.2 = []) ∨
  (s.1.state = St.waitRequest ∧ s.1.singleTrainMode = false ∧
    countChrimsonOn s.2 = N ∧ countChrimsonOff s.2 = N ∧
    s.1.pulseIndex = 0 ∧ s.1.currentTrain = 1 ∧
    resultsOf s.2 = [CODE_UI_CHRIMSON])

/-- The ChR2 analogue of `chrimsonSessionInv`. -/
def chr2SessionInv (N : Nat) (s : SCfg × List Ev) : Prop :=
  (s.1.state = St.chr2Stim ∧ s.1.singleTrainMode = true ∧
    s.1.uiChr2 = true ∧ s.1.bossChr2 = false ∧
    countChr2On s.2 = countChr2Off s.2 + (if s.1.inPulse then 1 else 0) ∧
    countChr2Off s.2 = s.1.pulseIndex ∧ s.1.pulseIndex < N ∧
    s.1.currentTrain = 0 ∧ resultsOf s.2 = []) ∨
  (s.1.state = St.waitRequest ∧ s.1.singleTrainMode = false ∧
    countChr2On s.2 = N ∧ countChr2Off s.2 = N ∧
    s.1.pulseIndex = 0 ∧ s.1.currentTrain = 1 ∧
    resultsOf s.2 = [CODE_UI_CHR2])

/-- Tick times of a concrete Chrimson session run with the default
parameters (5 pulses, width 10 ms, IPI 100 ms). -/
def c2ts : List Nat := [100, 110, 210, 220, 320, 330, 430, 440, 540, 550]

/-- Tick times of a concrete ChR2 session run with the default parameters
(5 pulses, width 5 ms, IPI 35 ms). -/
def c2tsChr2 : List Nat := [35, 40, 75, 80, 115, 120, 155, 160, 195, 200]

/-- Engine globals of a ladder run that has finished the trains of the
current phase (`currentTrain = 2`). -/
def c8eng : SCfg :=
  { state := St.optoLadder
    prevState := St.optoLadder
    inPulse := false
    pulseIndex := 0
    currentTrain := 2
    currentAout := 2
    pulseTimer := 0
    ipiTimer := 0
    chR2ipiTimer := 0
    singleTrainMode := false
    uiChrimson := false
    bossChrimson := false
    uiChr2 := false
    bossChr2 := false
    resultCode := -1 }

/-- A Svedberg ladder configuration dwelling in the inter-phase delay after
phase 0, with the delay timer started at tick 0. -/
def c8delay : LCfg :=
  { eng := c8eng, phase := 0, delayAfterPhase := true, delayStartTime := 0 }

/-- A Svedberg ladder configuration whose terminal phase has run all of its
trains. -/
def c8term : LCfg :=
  { eng := c8eng, phase := 2, delayAfterPhase := false, delayStartTime := 0 }

/-! ## Event-trace counting lemmas -/

@[simp] lemma countChrimsonOn_nil : countChrimsonOn [] = 0 := rfl

@[simp] lemma countChrimsonOff_nil : countChrimsonOff [] = 0 := rfl

@[simp] lemma countChr2On_nil : countChr2On [] = 0 := rfl

@[simp] lemma countChr2Off_nil : countChr2Off [] = 0 := rfl

@[simp] lemma resultsOf_nil : resultsOf [] = [] := rfl

@[simp] lemma countChrimsonOn_append (l1 l2 : List Ev) :
    countChrimsonOn (l1 ++ l2) = countChrimsonOn l1 + countChrimsonOn l2 :=
  List.count_append _ _ _

@[simp] lemma countChrimsonOff_append (l1 l2 : List Ev) :
    countChrimsonOff (l1 ++ l2) = countChrimsonOff l1 + countChrimsonOff l2 :=
  List.count_append _ _ _

@[simp] lemma countChr2On_append (l1 l2 : List Ev) :
    countChr2On (l1 ++ l2) = countChr2On l1 + countChr2On l2 :=
  List.count_append _ _ _

@[simp] lemma countChr2Off_append (l1 l2 : List Ev) :
    countChr2Off (l1 ++ l2) = countChr2Off l1 + countChr2Off l2 :=
  List.count_append _ _ _

@[simp] lemma resultsOf_append (l1 l2 : List Ev) :
    resultsOf (l1 ++ l2) = resultsOf l1 ++ resultsOf l2 :=
  List.filterMap_append _ _ _

@[simp] lemma countChrimsonOn_cons (e : Ev) (l : List Ev) :
    countChrimsonOn (e :: l) = countChrimsonOn l + (if e = Ev.chrimsonOn then 1 else 0) := by
  simp [countChrimsonOn, List.count_cons]

@[simp] lemma countChrimsonOff_cons (e : Ev) (l : List Ev) :
    countChrimsonOff (e :: l) = countChrimsonOff l + (if e = Ev.chrimsonOff then 1 else 0) := by
  simp [countChrimsonOff, List.count_cons]

@[simp] lemma countChr2On_cons (e : Ev) (l : List Ev) :
    countChr2On (e :: l) = countChr2On l + (if e = Ev.chr2On then 1 else 0) := by
  simp [countChr2On, List.count_cons]

@[simp] lemma countChr2Off_cons (e : Ev) (l : List Ev) :
    countChr2Off (e :: l) = countChr2Off l + (if e = Ev.chr2Off then 1 else 0) := by
  simp [countChr2Off, List.count_cons]

@[simp] lemma resultsOf_cons (e : Ev) (l : List Ev) :
    resultsOf (e :: l) =
      (match e with | Ev.result n => [n] | _ => []) ++ resultsOf l := by
  cases e <;> rfl

/-! ## Session-invariant lemmas for the Svedberg pulse engine -/

set_option maxHeartbeats 2000000 in
/-- One dispatcher tick preserves the Chrimson session invariant. -/
lemma chrimsonInv_step (P : Pars) (c : SCfg) (evs : List Ev) (t : Nat)
    (h : chrimsonSessionInv P.chrimsonNumPulses (c, evs)) :
    chrimsonSessionInv P.chrimsonNumPulses (tickChrimson P (c, evs) t) := by
  rcases h with ⟨hst, hstm, hui, hboss, hon, hoff, hlt, hct, hres⟩ | hdone
  case inr =>
    obtain ⟨h1, h2, h3, h4, h5, h6, h7⟩ := hdone
    have hne : ¬(c.state = St.chrimsonStim) := by
      rw [h1]; decide
    simp only [tickChrimson, if_neg hne]
    exact Or.inr ⟨h1, h2, h3, h4, h5, h6, h7⟩
  case inl =>
    simp only [tickChrimson, hst, if_pos, runChrimsonTrain,
      chrimsonStartPulse, chrimsonEndPulse, chrimsonComplete]
    split_ifs <;>
      simp_all [chrimsonSessionInv] <;>
      omega

set_option maxHeartbeats 2000000 in
/-- One dispatcher tick preserves the ChR2 session invariant. -/
lemma chr2Inv_step (P : Pars) (c : SCfg) (evs : List Ev) (t : Nat)
    (h : chr2SessionInv P.chr2NumPulses (c, evs)) :
    chr2SessionInv P.chr2NumPulses (tickChr2 P (c, evs) t) := by
  rcases h with ⟨hst, hstm, hui, hboss, hon, hoff, hlt, hct, hres⟩ | hdone
  case inr =>
    obtain ⟨h1, h2, h3, h4, h5, h6, h7⟩ := hdone
    have hne : ¬(c.state = St.chr2Stim) := by
      rw [h1]; decide
    simp only [tickChr2, if_neg hne]
    exact Or.inr ⟨h1, h2, h3, h4, h5, h6, h7⟩
  case inl =>
    simp only [tickChr2, hst, if_pos, runChR2Train,
      chr2StartPulse, chr2EndPulse, chr2Complete]
    split_ifs <;>
      simp_all [chr2SessionInv] <;>
      omega

/-- The Chrimson session invariant holds after any sequence of ticks. -/
lemma chrimsonInv_fold (P : Pars) (ts : List Nat) (s : SCfg × List Ev)
    (h : chrimsonSessionInv P.chrimsonNumPulses s) :
    chrimsonSessionInv P.chrimsonNumPulses (ts.foldl (tickChrimson P) s) := by
  induction ts generalizing s with
  | nil => simpa using h
  | cons t ts ih =>
    simp only [List.foldl_cons]
    exact ih _ (chrimsonInv_step P s.1 s.2 t h)

/-- The ChR2 session invariant holds after any sequence of ticks. -/
lemma chr2Inv_fold (P : Pars) (ts : List Nat) (s : SCfg × List Ev)
    (h : chr2SessionInv P.chr2NumPulses s) :
    chr2SessionInv P.chr2NumPulses (ts.foldl (tickChr2 P) s) := by
  induction ts generalizing s with
  | nil => simpa using h
  | cons t ts ih =>
    simp only [List.foldl_cons]
    exact ih _ (chr2Inv_step P s.1 s.2 t h)

/-! ## Claims -/

/-- C9: every parameter-write command performs the store write with no
bounds validation; in the guarded embedding an id in `[0, 30)` updates
exactly the identified entry, and an id outside `[0, 30)` reaches the
out-of-bounds error branch instead of being rejected in-band. -/
theorem C9_param_write_bounds (p : List ℚ) (hp : p.length = svNumPars)
    (id : Nat) (v : ℚ) :
    (id < svNumPars →
      ∃ q, svParamWrite p id v = some q ∧ q.getD id 0 = v ∧
        q.length = svNumPars ∧
        ∀ j, j < svNumPars → j ≠ id → q.getD j 0 = p.getD j 0) ∧
    (svNumPars ≤ id → svParamWrite p id v = none) := by
  constructor
  · intro hid
    have hlt : id < p.length := by rw [hp]; exact hid
    refine ⟨p.set id v, ?_, ?_, ?_, ?_⟩
    · simp [svParamWrite, hlt]
    · simp [List.getD_eq_getElem?_getD, List.getElem?_set_self, hlt]
    · simp [hp]
    · intro j hj hne
      simp [List.getD_eq_getElem?_getD, List.getElem?_set_ne (Ne.symm hne)]
  · intro hid
    have : ¬id < p.length := by omega
    simp [svParamWrite, this]

/-- C9 witness: the in-bounds write of value 42 to id 5 on the default
parameter array succeeds and lands at entry 5; the write to id 30 reaches
the error branch. -/
theorem C9_witness :
    (∃ q, svParamWrite svDefaultParams 5 42 = some q ∧ q.getD 5 0 = 42 ∧
      q.length = svNumPars ∧
      ∀ j, j < svNumPars → j ≠ 5 → q.getD j 0 = svDefaultParams.getD j 0) ∧
    svParamWrite svDefaultParams 30 42 = none :=
  ⟨(C9_param_write_bounds svDefaultParams (by decide) 5 42).1 (by decide),
   (C9_param_write_bounds svDefaultParams (by decide) 30 42).2 (by decide)⟩

/-- C3 (amended): once in `UPDATE_PARAMS_STATE`, every tick whose pending
command is neither the update-complete command `'O'` nor the quit command
`'Q'` stays in `UPDATE_PARAMS_STATE`; on `'O'` the machine transitions to
exactly `_prevState`, the state active before the parameter-update request,
and drops the hold. -/
theorem C3_updateParams_holds_until_O :
    (∀ (c : UCfg) (cmd : Char), c.state = St.updateParams → cmd ≠ 'O' → cmd ≠ 'Q' →
      (update_params_state cmd c).1.state = St.updateParams) ∧
    (∀ c : UCfg, c.state = St.updateParams →
      (update_params_state 'O' c).1.state = c.prevState ∧
      (update_params_state 'O' c).1.hold = false) := by
  constructor
  · intro c cmd _ hO hQ
    by_cases hh : c.hold = true <;>
      simp [update_params_state, hh, hO, hQ]
  · intro c _
    by_cases hh : c.hold = true <;>
      simp [update_params_state, hh]

/-- C3 witness: from a held UpdateParams configuration, an unrelated command
leaves the machine in UpdateParams, and the completion command restores the
previous state and releases the hold. -/
theorem C3_witness :
    (update_params_state 'Z' u0).1.state = St.updateParams ∧
    (update_params_state 'O' u0).1.state = St.waitRequest ∧
    (update_params_state 'O' u0).1.hold = false :=
  ⟨C3_updateParams_holds_until_O.1 u0 'Z' rfl (by decide) (by decide),
   ((C3_updateParams_holds_until_O.2 u0 rfl).1).trans rfl,
   (C3_updateParams_holds_until_O.2 u0 rfl).2⟩

/-- C3 counterexample: the quit command `'Q'` — which is not the
update-complete command — moves the machine from `UPDATE_PARAMS_STATE` to
`IDLE_STATE`, so the machine does not stay in UpdateParams until `'O'` is
received. -/
theorem C3_counterexample :
    u0.state = St.updateParams ∧
    (update_params_state 'Q' u0).1.state = St.idle ∧
    St.idle ≠ St.updateParams ∧ ('Q' : Char) ≠ 'O' := by
  refine ⟨rfl, rfl, by decide, by decide⟩

/-- C5 (amended): a Chrimson request observed mid-train (hardware trigger or
host command) is accepted and restarts the session bookkeeping — pulse index
0, in-pulse flag cleared, train counter 0, single-train mode set, state
(re-)entered — with last-request-wins semantics; however the pulse timers
(`pulseTimer`, `ipiTimer`) are left untouched and no OFF edge is emitted, so
pulse timing continues from the superseded train and an in-flight pulse is
not turned off by the restart. -/
theorem C5_request_restarts_bookkeeping (c : SCfg) (trigger : Bool) (cmd : Char)
    (h : trigger = true ∨ cmd = 'C') :
    (checkChrimsonRequest trigger cmd c).1 = true ∧
    (checkChrimsonRequest trigger cmd c).2.1.pulseIndex = 0 ∧
    (checkChrimsonRequest trigger cmd c).2.1.inPulse = false ∧
    (checkChrimsonRequest trigger cmd c).2.1.currentTrain = 0 ∧
    (checkChrimsonRequest trigger cmd c).2.1.singleTrainMode = true ∧
    (checkChrimsonRequest trigger cmd c).2.1.state = St.chrimsonStim ∧
    (checkChrimsonRequest trigger cmd c).2.1.ipiTimer = c.ipiTimer ∧
    (checkChrimsonRequest trigger cmd c).2.1.pulseTimer = c.pulseTimer ∧
    Ev.chrimsonOff ∉ (checkChrimsonRequest trigger cmd c).2.2 := by
  rcases h with h | h
  · subst h
    simp [checkChrimsonRequest, stimulateChrimson]
  · by_cases ht : trigger = true <;>
      simp [checkChrimsonRequest, stimulateChrimson, ht, h]

/-- C5 witness: a hardware trigger observed while pulse 3 of a session is in
flight resets the bookkeeping as described. -/
theorem C5_witness :
    (checkChrimsonRequest true ' ' c5mid).1 = true ∧
    (checkChrimsonRequest true ' ' c5mid).2.1.pulseIndex = 0 ∧
    (checkChrimsonRequest true ' ' c5mid).2.1.inPulse = false ∧
    (checkChrimsonRequest true ' ' c5mid).2.1.currentTrain = 0 ∧
    (checkChrimsonRequest true ' ' c5mid).2.1.singleTrainMode = true ∧
    (checkChrimsonRequest true ' ' c5mid).2.1.state = St.chrimsonStim ∧
    (checkChrimsonRequest true ' ' c5mid).2.1.ipiTimer = c5mid.ipiTimer ∧
    (checkChrimsonRequest true ' ' c5mid).2.1.pulseTimer = c5mid.pulseTimer ∧
    Ev.chrimsonOff ∉ (checkChrimsonRequest true ' ' c5mid).2.2 :=
  C5_request_restarts_bookkeeping c5mid true ' ' (Or.inl rfl)

/-- C5 counterexample: the claim says timing restarts from the new request.
At the concrete mid-pulse configuration `c5mid` (output ON, `ipiTimer = 500`,
`pulseTimer = 777`), handling a new trigger leaves both timers at their old
values — the handler never reads the clock, so for any request instant `t`
distinct from those stale values the timers do not equal `t` — and emits no
OFF edge, so the in-flight output of the superseded pulse remains ON. -/
theorem C5_counterexample :
    c5mid.inPulse = true ∧
    (checkChrimsonRequest true ' ' c5mid).2.1.ipiTimer = 500 ∧
    (checkChrimsonRequest true ' ' c5mid).2.1.pulseTimer = 777 ∧
    Ev.chrimsonOff ∉ (checkChrimsonRequest true ' ' c5mid).2.2 := by
  refine ⟨rfl, rfl, rfl, by decide⟩

/-- C6 (amended): in the NH variant, when a BOSS-initiated Chrimson session
is active, cancellation enabled, and the cancel pin read high, the same tick
terminates the session: both in-progress flags and the duty (in-pulse) state
are cleared, the channel is turned off, and exactly the cancellation result
code — never the normal completion code — is emitted.  (UI-initiated
sessions have no cancel branch, and the Svedberg engine never reads the
cancel pin.) -/
theorem C6_boss_cancel (pp : NHStimPars) (cancelPin : Bool) (t : Nat)
    (c : NHStimCfg) (hb : c.bossInProgress = true)
    (hen : pp.cancelEnabled = true) (hpin : cancelPin = true) :
    (nhCheckStimChrimson pp cancelPin t c).1.bossInProgress = false ∧
    (nhCheckStimChrimson pp cancelPin t c).1.uiInProgress = false ∧
    (nhCheckStimChrimson pp cancelPin t c).1.dutyState = false ∧
    (nhCheckStimChrimson pp cancelPin t c).1.timeStimulated = 0 ∧
    Ev.chrimsonOff ∈ (nhCheckStimChrimson pp cancelPin t c).2 ∧
    resultsOf (nhCheckStimChrimson pp cancelPin t c).2 = [CODE_CHRIMSON_CANCEL] ∧
    CODE_CHRIMSON ∉ resultsOf (nhCheckStimChrimson pp cancelPin t c).2 := by
  subst hpin
  simp [nhCheckStimChrimson, hb, hen, resultsOf, CODE_CHRIMSON_CANCEL, CODE_CHRIMSON]

/-- C6 witness: a BOSS session cancelled at tick 600. -/
theorem C6_witness :
    (nhCheckStimChrimson c6pars true 600 bossActive).1.bossInProgress = false ∧
    (nhCheckStimChrimson c6pars true 600 bossActive).1.uiInProgress = false ∧
    (nhCheckStimChrimson c6pars true 600 bossActive).1.dutyState = false ∧
    (nhCheckStimChrimson c6pars true 600 bossActive).1.timeStimulated = 0 ∧
    Ev.chrimsonOff ∈ (nhCheckStimChrimson c6pars true 600 bossActive).2 ∧
    resultsOf (nhCheckStimChrimson c6pars true 600 bossActive).2 = [CODE_CHRIMSON_CANCEL] ∧
    CODE_CHRIMSON ∉ resultsOf (nhCheckStimChrimson c6pars true 600 bossActive).2 :=
  C6_boss_cancel c6pars true 600 bossActive rfl rfl rfl

/-- C6 counterexample: with cancellation enabled and the cancel pin high,
the tick at `t = 600` on an active UI-initiated session does not terminate
it — the session flag stays set and no result code at all is emitted; the
cancel branch exists only for BOSS sessions. -/
theorem C6_counterexample :
    c6pars.cancelEnabled = true ∧ c6ui.uiInProgress = true ∧
    (nhCheckStimChrimson c6pars true 600 c6ui).1.uiInProgress = true ∧
    resultsOf (nhCheckStimChrimson c6pars true 600 c6ui).2 = [] := by
  refine ⟨rfl, rfl, by decide, by decide⟩

/-- C7 (amended): in the NH variant, the UpdateParams entry tick (hold not
yet set) emits exactly one warning event when a Chrimson
stimulation-in-progress flag is set, and subsequent held ticks emit none —
once per entry, not once per tick.  ChR2-only sessions produce no warning,
and the Svedberg variant never calls `checkWarnings`. -/
theorem C7_warning_on_entry :
    (∀ (c : NHUCfg) (cmd : Char), c.hold = false →
      (c.bossChrimson = true ∨ c.uiChrimson = true) →
      ((nhUpdateParamsTick cmd c).2.count Ev.warnParamsDuringStim = 1)) ∧
    (∀ (c : NHUCfg) (cmd : Char), c.hold = true →
      (nhUpdateParamsTick cmd c).2.count Ev.warnParamsDuringStim = 0) := by
  constructor
  · intro c cmd hh hf
    have hw : nhCheckWarnings c.bossChrimson c.uiChrimson =
        [Ev.warnParamsDuringStim, Ev.marker EVENT_CHRIMSON_ERROR] := by
      rcases hf with hf | hf <;> simp [nhCheckWarnings, hf]
    by_cases hq : cmd = 'Q' <;> by_cases ho : cmd = 'O' <;>
      simp [nhUpdateParamsTick, hh, hw, hq, ho, List.count_cons]
  · intro c cmd hh
    by_cases hq : cmd = 'Q' <;> by_cases ho : cmd = 'O' <;>
      simp [nhUpdateParamsTick, hh, hq, ho]

/-- C7 witness: entering UpdateParams with the UI Chrimson flag set emits
exactly one warning; the following held tick emits none. -/
theorem C7_witness :
    (nhUpdateParamsTick ' ' c7chrimson).2.count Ev.warnParamsDuringStim = 1 ∧
    (nhUpdateParamsTick ' ' ((nhUpdateParamsTick ' ' c7chrimson).1)).2.count
      Ev.warnParamsDuringStim = 0 :=
  ⟨C7_warning_on_entry.1 c7chrimson ' ' rfl (Or.inr rfl),
   C7_warning_on_entry.2 ((nhUpdateParamsTick ' ' c7chrimson).1) ' ' rfl⟩

/-- C7 counterexample: entering UpdateParams while only the ChR2 session
flag is set emits zero warning events, contradicting the claim that a
warning is emitted for either channel of the session. -/
theorem C7_counterexample :
    c7chr2.uiChr2 = true ∧ c7chr2.hold = false ∧
    (nhUpdateParamsTick ' ' c7chr2).2.count Ev.warnParamsDuringStim = 0 := by
  refine ⟨rfl, rfl, by decide⟩

/-- C4 (code bug): the NH per-tick advance function executes a blocking
`delay(CHRIMSON_PERIOD)` — 4 ms, since `CHRIMSON_PERIOD` is the bare enum
index — inside the train-completion branch, contradicting the requirement
that the advance contains no blocking wait.  Evaluated at the failing input:
the final duty-LOW interval of pulse 5 has elapsed at tick 501. -/
theorem C4_nh_blocking_delay :
    (nhRunChrimsonTrain 500 500 c4glob 501).2.2 = NHC_CHRIMSON_PERIOD ∧
    0 < NHC_CHRIMSON_PERIOD ∧
    (nhRunChrimsonTrain 500 500 c4glob 501).1.currentTrain = 1 ∧
    (nhRunChrimsonTrain 500 500 c4glob 501).1.inPulse = false := by
  refine ⟨rfl, by decide, rfl, rfl⟩

/-- C8 counterexample: in the NH variant, completing the terminal ladder
phase transitions to `IDLE_STATE`, not `WAIT_REQUEST_STATE`, and emits no
ladder-completion result code. -/
theorem C8_counterexample :
    (nhOptoLadderStep 500 500 35 65 c8nh 0).1.state = St.idle ∧
    St.idle ≠ St.waitRequest ∧
    resultsOf (nhOptoLadderStep 500 500 35 65 c8nh 0).2.1 = [] := by
  refine ⟨by decide, by decide, by decide⟩

/-- C10: the two channel sessions are not independent — they share the
single `inPulse` / `pulseIndex` / `pulseTimer` / `currentTrain` bookkeeping.
Starting a session on either channel unconditionally overwrites the shared
pulse index, in-pulse flag and train count, and a ChR2 advance tick mutates
the same pulse index, train count, in-pulse flag and pulse timer that the
Chrimson engine reads. -/
theorem C10_shared_session_state :
    (∀ c : SCfg, (stimulateChR2 c).pulseIndex = 0 ∧
      (stimulateChR2 c).inPulse = false ∧ (stimulateChR2 c).currentTrain = 0) ∧
    (∀ c : SCfg, (stimulateChrimson c).pulseIndex = 0 ∧
      (stimulateChrimson c).inPulse = false ∧ (stimulateChrimson c).currentTrain = 0) ∧
    (∃ (c : SCfg) (t : Nat),
      (runChR2Train defaultPars c t).1.pulseIndex ≠ c.pulseIndex ∧
      (runChR2Train defaultPars c t).1.currentTrain ≠ c.currentTrain ∧
      (runChR2Train defaultPars c t).1.inPulse ≠ c.inPulse) ∧
    (∃ (c : SCfg) (t : Nat),
      (runChR2Train defaultPars c t).1.pulseTimer ≠ c.pulseTimer) := by
  refine ⟨fun c => ⟨rfl, rfl, rfl⟩, fun c => ⟨rfl, rfl, rfl⟩, ?_, ?_⟩
  · exact ⟨c10off, 10, by decide⟩
  · exact ⟨c10on, 100, by decide⟩


set_option maxHeartbeats 1000000 in
/-- C8 (amended): in the Svedberg variant the ladder runs exactly three
phases — the phase counter never leaves `{0, 1, 2}` and advances only one
step at a time, and only on a tick at which the inter-phase delay flag is
set and at least `STIM_TRAIN_DELAY` ms have elapsed since the delay began;
completing the terminal phase transitions to `WAIT_REQUEST_STATE` and emits
the `CODE_OPTOTAG` ladder-completion result code.  (In the NH variant the
terminal phase instead transitions to `IDLE_STATE` with no result code.) -/
theorem C8_ladder_phases (P : Pars) (c : LCfg) (t : Nat) :
    (c.phase ≤ 2 → (optoLadderStep P c t).1.phase ≤ 2) ∧
    ((optoLadderStep P c t).1.phase ≠ c.phase →
      (optoLadderStep P c t).1.phase = c.phase + 1 ∧
      c.delayAfterPhase = true ∧ P.stimTrainDelay ≤ t - c.delayStartTime) ∧
    (c.phase = 2 → P.chrimsonTrainsAfterChr2 ≤ c.eng.currentTrain →
      (optoLadderStep P c t).1.eng.state = St.waitRequest ∧
      (optoLadderStep P c t).1.eng.resultCode = CODE_OPTOTAG ∧
      Ev.result CODE_OPTOTAG ∈ (optoLadderStep P c t).2) := by
  obtain ⟨eng, phase, dap, dst⟩ := c
  rcases phase with _ | _ | _ | n <;>
    refine ⟨?_, ?_, ?_⟩ <;>
    simp only [optoLadderStep] <;>
    (try split_ifs) <;>
    intros <;>
    (try simp_all) <;>
    omega

/-- C8 witness: with the default parameters, the phase-0 delay that started
at tick 0 advances to phase 1 at tick 1000, and the finished terminal phase
moves to WaitRequest emitting `CODE_OPTOTAG`. -/
theorem C8_witness :
    ((optoLadderStep defaultPars c8delay 1000).1.phase = c8delay.phase + 1 ∧
      c8delay.delayAfterPhase = true ∧
      defaultPars.stimTrainDelay ≤ 1000 - c8delay.delayStartTime) ∧
    ((optoLadderStep defaultPars c8term 0).1.eng.state = St.waitRequest ∧
      (optoLadderStep defaultPars c8term 0).1.eng.resultCode = CODE_OPTOTAG ∧
      Ev.result CODE_OPTOTAG ∈ (optoLadderStep defaultPars c8term 0).2) ∧
    (optoLadderStep defaultPars c8delay 1000).1.phase ≤ 2 :=
  ⟨(C8_ladder_phases defaultPars c8delay 1000).2.1 (by decide),
   (C8_ladder_phases defaultPars c8term 0).2.2 rfl (by decide),
   (C8_ladder_phases defaultPars c8delay 1000).1 (by decide)⟩

set_option maxHeartbeats 1000000 in
/-- C1 (amended): for an authoritative field of the CHRIMSON, UI_CHRIMSON or
CHR2 parameter group of the NH variant, with nonzero written value and
nonzero stored period, a parameter update whose group satisfied
period = 1000/frequency before the update — no other precondition on the
group — leaves the group fully consistent afterwards:
period = 1000/frequency, upTime + downTime = period and
dutyCycle = 100*upTime/period.  (The UI_CHR2 group is never recomputed, and
the Svedberg variant has no such parameter groups.) -/
theorem C1_update_recompute (p : Nat → ℚ) (T : Triple)
    (hT : T = chrimsonTriple ∨ T = uiChrimsonTriple ∨ T = chr2Triple)
    (id : Nat)
    (hid : id = T.freq ∨ id = T.period ∨ id = T.duty ∨ id = T.up ∨ id = T.down)
    (v : ℚ) (hv : v ≠ 0) (hper : p T.period ≠ 0)
    (hpf : p T.period = 1000 / p T.freq) :
    tripleOK (nhParamUpdate id v p) T := by
  rcases hT with rfl | rfl | rfl <;>
    rcases hid with rfl | rfl | rfl | rfl | rfl <;>
    simp only [chrimsonTriple, uiChrimsonTriple, chr2Triple] at * <;>
    simp [nhParamUpdate, nhRecompute, svSet, tripleOK, chrimsonTriple, uiChrimsonTriple,
      chr2Triple, NHP.CHRIMSON_DUTY_CYCLE, NHP.CHRIMSON_UP_TIME,
      NHP.CHRIMSON_DOWN_TIME, NHP.CHRIMSON_FREQUENCY, NHP.CHRIMSON_PERIOD,
      NHP.UI_CHRIMSON_DUTY_CYCLE, NHP.UI_CHRIMSON_UP_TIME, NHP.UI_CHRIMSON_DOWN_TIME,
      NHP.UI_CHRIMSON_FREQUENCY, NHP.UI_CHRIMSON_PERIOD, NHP.CHR2_DUTY_CYCLE,
      NHP.CHR2_UP_TIME, NHP.CHR2_DOWN_TIME, NHP.CHR2_FREQUENCY, NHP.CHR2_PERIOD] <;>
    first
    | exact hpf
    | exact ⟨hpf, by field_simp⟩
    | (field_simp; try ring)

/-- C1 counterexample: updating the authoritative UI_CHR2 frequency (id 21)
to 4 on the NH default parameters recomputes nothing — the UI_CHR2 group has
no recompute block — so afterwards the UI_CHR2 period (still 100) differs
from 1000/frequency (= 250), refuting the claim for that triple. -/
theorem C1_counterexample :
    nhParamUpdate NHP.UI_CHR2_FREQUENCY 4 nhDefaultParams NHP.UI_CHR2_PERIOD ≠
      1000 / nhParamUpdate NHP.UI_CHR2_FREQUENCY 4 nhDefaultParams NHP.UI_CHR2_FREQUENCY := by
  have h22 : nhParamUpdate NHP.UI_CHR2_FREQUENCY 4 nhDefaultParams NHP.UI_CHR2_PERIOD =
      100 := rfl
  have h21 : nhParamUpdate NHP.UI_CHR2_FREQUENCY 4 nhDefaultParams NHP.UI_CHR2_FREQUENCY =
      4 := rfl
  rw [h22, h21]
  norm_num

/-- C1 witness: writing duty cycle 20 to the CHRIMSON group of the NH
default parameters (whose period and frequency are consistent) leaves the
group fully consistent. -/
theorem C1_witness :
    (20 : ℚ) ≠ 0 ∧ nhDefaultParams chrimsonTriple.period ≠ 0 ∧
    nhDefaultParams chrimsonTriple.period = 1000 / nhDefaultParams chrimsonTriple.freq ∧
    tripleOK (nhParamUpdate NHP.CHRIMSON_DUTY_CYCLE 20 nhDefaultParams) chrimsonTriple := by
  have e1 : nhDefaultParams chrimsonTriple.period = (1000 : ℚ) := rfl
  have e2 : nhDefaultParams chrimsonTriple.freq = (1 : ℚ) := rfl
  have hpf : nhDefaultParams chrimsonTriple.period =
      1000 / nhDefaultParams chrimsonTriple.freq := by
    rw [e1, e2]; norm_num
  refine ⟨by norm_num, ?_, hpf, ?_⟩
  · rw [e1]; norm_num
  · exact C1_update_recompute nhDefaultParams chrimsonTriple (Or.inl rfl)
      NHP.CHRIMSON_DUTY_CYCLE (Or.inr (Or.inr (Or.inl rfl))) 20
      (by norm_num) (by rw [e1]; norm_num) hpf

/-- C2: a single-train session (UI request, pulse count `N > 0`) that the
per-tick engine has run to completion — observed by the return to
`WAIT_REQUEST_STATE` — turned its channel ON exactly `N` times and OFF
exactly `N` times, reset the pulse index, incremented the train counter,
reported exactly one result code (the UI code of that channel) and left
single-train mode; stated for both the Chrimson and the ChR2 engine, over
every tick-time sequence and all parameter values. -/
theorem C2_single_train_session (P : Pars) (ts : List Nat) (pt ipit c2t : Nat) :
    (0 < P.chrimsonNumPulses →
      (stimTicks P (uiChrimsonSessionStart pt ipit c2t) ts).1.state = St.waitRequest →
      countChrimsonOn (stimTicks P (uiChrimsonSessionStart pt ipit c2t) ts).2 =
        P.chrimsonNumPulses ∧
      countChrimsonOff (stimTicks P (uiChrimsonSessionStart pt ipit c2t) ts).2 =
        P.chrimsonNumPulses ∧
      resultsOf (stimTicks P (uiChrimsonSessionStart pt ipit c2t) ts).2 =
        [CODE_UI_CHRIMSON] ∧
      (stimTicks P (uiChrimsonSessionStart pt ipit c2t) ts).1.pulseIndex = 0 ∧
      (stimTicks P (uiChrimsonSessionStart pt ipit c2t) ts).1.currentTrain = 1 ∧
      (stimTicks P (uiChrimsonSessionStart pt ipit c2t) ts).1.singleTrainMode = false) ∧
    (0 < P.chr2NumPulses →
      (stimTicksChr2 P (uiChr2SessionStart pt ipit c2t) ts).1.state = St.waitRequest →
      countChr2On (stimTicksChr2 P (uiChr2SessionStart pt ipit c2t) ts).2 =
        P.chr2NumPulses ∧
      countChr2Off (stimTicksChr2 P (uiChr2SessionStart pt ipit c2t) ts).2 =
        P.chr2NumPulses ∧
      resultsOf (stimTicksChr2 P (uiChr2SessionStart pt ipit c2t) ts).2 =
        [CODE_UI_CHR2] ∧
      (stimTicksChr2 P (uiChr2SessionStart pt ipit c2t) ts).1.pulseIndex = 0 ∧
      (stimTicksChr2 P (uiChr2SessionStart pt ipit c2t) ts).1.currentTrain = 1 ∧
      (stimTicksChr2 P (uiChr2SessionStart pt ipit c2t) ts).1.singleTrainMode = false) := by
  constructor
  · intro hN hfinal
    have hbase : chrimsonSessionInv P.chrimsonNumPulses
        (uiChrimsonSessionStart pt ipit c2t, ([] : List Ev)) := by
      refine Or.inl ⟨rfl, rfl, rfl, rfl, ?_, rfl, hN, rfl, rfl⟩
      simp [uiChrimsonSessionStart]
    have hinv := chrimsonInv_fold P ts (uiChrimsonSessionStart pt ipit c2t, []) hbase
    rcases hinv with ⟨hs, _⟩ | ⟨_, h2, h3, h4, h5, h6, h7⟩
    · have hs2 : (stimTicks P (uiChrimsonSessionStart pt ipit c2t) ts).1.state =
          St.chrimsonStim := hs
      rw [hfinal] at hs2
      exact absurd hs2 (by decide)
    · exact ⟨h3, h4, h7, h5, h6, h2⟩
  · intro hN hfinal
    have hbase : chr2SessionInv P.chr2NumPulses
        (uiChr2SessionStart pt ipit c2t, ([] : List Ev)) := by
      refine Or.inl ⟨rfl, rfl, rfl, rfl, ?_, rfl, hN, rfl, rfl⟩
      simp [uiChr2SessionStart]
    have hinv := chr2Inv_fold P ts (uiChr2SessionStart pt ipit c2t, []) hbase
    rcases hinv with ⟨hs, _⟩ | ⟨_, h2, h3, h4, h5, h6, h7⟩
    · have hs2 : (stimTicksChr2 P (uiChr2SessionStart pt ipit c2t) ts).1.state =
          St.chr2Stim := hs
      rw [hfinal] at hs2
      exact absurd hs2 (by decide)
    · exact ⟨h3, h4, h7, h5, h6, h2⟩

/-- C2 witness: a concrete Chrimson run (5 pulses, width 10, IPI 100) and a
concrete ChR2 run (5 pulses, width 5, IPI 35) both complete with exactly
five ON and five OFF edges and one result report. -/
theorem C2_witness :
    (countChrimsonOn (stimTicks defaultPars (uiChrimsonSessionStart 0 0 0) c2ts).2 = 5 ∧
      countChrimsonOff (stimTicks defaultPars (uiChrimsonSessionStart 0 0 0) c2ts).2 = 5 ∧
      resultsOf (stimTicks defaultPars (uiChrimsonSessionStart 0 0 0) c2ts).2 =
        [CODE_UI_CHRIMSON] ∧
      (stimTicks defaultPars (uiChrimsonSessionStart 0 0 0) c2ts).1.pulseIndex = 0 ∧
      (stimTicks defaultPars (uiChrimsonSessionStart 0 0 0) c2ts).1.currentTrain = 1 ∧
      (stimTicks defaultPars (uiChrimsonSessionStart 0 0 0) c2ts).1.singleTrainMode = false) ∧
    (countChr2On (stimTicksChr2 defaultPars (uiChr2SessionStart 0 0 0) c2tsChr2).2 = 5 ∧
      countChr2Off (stimTicksChr2 defaultPars (uiChr2SessionStart 0 0 0) c2tsChr2).2 = 5 ∧
      resultsOf (stimTicksChr2 defaultPars (uiChr2SessionStart 0 0 0) c2tsChr2).2 =
        [CODE_UI_CHR2] ∧
      (stimTicksChr2 defaultPars (uiChr2SessionStart 0 0 0) c2tsChr2).1.pulseIndex = 0 ∧
      (stimTicksChr2 defaultPars (uiChr2SessionStart 0 0 0) c2tsChr2).1.currentTrain = 1 ∧
      (stimTicksChr2 defaultPars (uiChr2SessionStart 0 0 0) c2tsChr2).1.singleTrainMode =
        false) :=
  ⟨(C2_single_train_session defaultPars c2ts 0 0 0).1 (by decide) (by decide),
   (C2_single_train_session defaultPars c2tsChr2 0 0 0).2 (by decide) (by decide)⟩

end HSOM
